import Mathlib

/-!
Shallow embedding of the Rosenkönig client core (`src/stores/game.ts`,
`src/components/game/GameBoard.vue`, `src/pages/GamePage.vue`).

TypeScript numbers that hold grid coordinates are embedded as `Int`;
timestamps (`new Date().toISOString()`) are embedded as an abstract `Nat`
clock value passed in as `now`.  Thrown `Error` messages are embedded as
`Except String` with the exact message strings of the source.  The remote
Supabase store is embedded as an explicit `DB` record threaded through the
operations; a Supabase `.update(...).eq('id', gameId)` becomes an update of
the row with that id, unconditional on any other column.
-/

inductive Seat
  | A
  | B
deriving DecidableEq, Repr

inductive TurnVal
  | A
  | B
  | N
deriving DecidableEq, Repr

inductive GameStatus
  | waiting
  | playing
  | finished
deriving DecidableEq, Repr

inductive Owner
  | ownNone
  | A
  | B
deriving DecidableEq, Repr

inductive CardKind
  | influence
  | hero
deriving DecidableEq, Repr

/-- A row of the `games` table (`Database['public']['Tables']['games']['Row']`). -/
structure Game where
  id : String
  status : GameStatus
  player_a : Option String
  player_b : Option String
  turn : TurnVal
  crown_x : Int
  crown_y : Int
  score_a : Option Int
  score_b : Option Int
  winner : Option Seat
  created_at : Nat
  updated_at : Option Nat
  finished_at : Option Nat
deriving DecidableEq, Repr

/-- A row of the `cells` table. -/
structure Cell where
  game_id : String
  x : Int
  y : Int
  owner : Owner
deriving DecidableEq, Repr

/-- A row of the `cards` table. -/
structure Card where
  game_id : String
  owner : Seat
  kind : CardKind
  dx : Int
  dy : Int
  steps : Int
  is_used : Bool
  order_in_deck : Nat
deriving DecidableEq, Repr

/-- A row of the `moves` table. -/
structure MoveRow where
  id : Nat
  game_id : String
  actor : Seat
  used_card : Option String
  from_x : Option Int
  from_y : Option Int
  to_x : Int
  to_y : Int
  flipped : Bool
  created_at : Nat
deriving DecidableEq, Repr

/-- The card template list `cardsToCreate` of `initializeCards`
(`game.ts` lines 258-272): kind, dx, dy, steps. -/
def cardsToCreate : List (CardKind × Int × Int × Int) :=
  [ (CardKind.influence, 1, 0, 1),
    (CardKind.influence, -1, 0, 1),
    (CardKind.influence, 0, 1, 1),
    (CardKind.influence, 0, -1, 1),
    (CardKind.hero, 2, 0, 1),
    (CardKind.hero, -2, 0, 1),
    (CardKind.hero, 0, 2, 1),
    (CardKind.hero, 0, -2, 1),
    (CardKind.hero, 1, 1, 1),
    (CardKind.hero, -1, -1, 1) ]

/-- The cell list built by `initializeBoard` (`game.ts` lines 225-255):
a 9×9 grid pushed row by row (outer loop `y`, inner loop `x`), every cell
owned by `'none'`, then the cell found at (4,4) is set to owner `'A'`. -/
def initializeBoard (gameId : String) : List Cell :=
  let cells :=
    (List.range 9).flatMap fun y =>
      (List.range 9).map fun x =>
        { game_id := gameId, x := (x : Int), y := (y : Int), owner := Owner.ownNone : Cell }
  cells.map fun c =>
    if c.x = 4 ∧ c.y = 4 then { c with owner := Owner.A } else c

/-- The card list built by `initializeCards` (`game.ts` lines 257-309):
`cardsToCreate` instantiated for player A (with `order_in_deck` the index
in the template list and `is_used` false) followed by the same list for
player B. -/
def initializeCards (gameId : String) : List Card :=
  let mk : Seat → (Nat × CardKind × Int × Int × Int) → Card := fun owner p =>
    { game_id := gameId, owner := owner, kind := p.2.1, dx := p.2.2.1,
      dy := p.2.2.2.1, steps := p.2.2.2.2, is_used := false,
      order_in_deck := p.1 }
  (cardsToCreate.enum.map (mk Seat.A)) ++ (cardsToCreate.enum.map (mk Seat.B))

/-- The coordinates of a freshly initialized board, in creation order; the
projection drops the `game_id` column, so it is the same closed list for
every session id. -/
def boardCoords (gameId : String) : List (Int × Int) :=
  (initializeBoard gameId).map fun c => (c.x, c.y)

/-- The coordinate/owner triples of the pre-owned cells of a fresh board. -/
def boardOwned (gameId : String) : List (Int × Int × Owner) :=
  ((initializeBoard gameId).filter fun c => c.owner ≠ Owner.ownNone).map
    fun c => (c.x, c.y, c.owner)

/-- Every coordinate pair of the [0,8]×[0,8] grid, row by row. -/
def allGridCoords : List (Int × Int) :=
  (List.range 9).flatMap fun y => (List.range 9).map fun x => ((x : Int), (y : Int))

/-- Projection of a deck to its gameplay-relevant columns. -/
def deckShape (cs : List Card) : List (CardKind × Int × Int × Int × Bool × Nat) :=
  cs.map fun c => (c.kind, c.dx, c.dy, c.steps, c.is_used, c.order_in_deck)

/-- The deck dealt to one seat in a fresh session, projected to its
gameplay-relevant columns. -/
def deckOf (gameId : String) (s : Seat) : List (CardKind × Int × Int × Int × Bool × Nat) :=
  deckShape ((initializeCards gameId).filter fun c => c.owner = s)

/-- The remote Supabase store, restricted to the tables the client touches.
Rows live in insertion order. -/
structure DB where
  games : List Game
  cells : List Cell
  cards : List Card
  moveRows : List MoveRow
deriving DecidableEq, Repr

/-- `select('*').eq('id', id).single()` on the `games` table. -/
def DB.getGame (db : DB) (id : String) : Option Game :=
  db.games.find? fun g => g.id = id

/-- `update(...).eq('id', id)` on the `games` table: every row whose `id`
matches is replaced by `g`; no other column condition is applied. -/
def DB.setGame (db : DB) (id : String) (g : Game) : DB :=
  { db with games := db.games.map fun r => if r.id = id then g else r }

/-- The Pinia store state of `useGameStore` (`game.ts` lines 17-25);
`errorMsg` embeds the `error` ref and `movesLog` the `moves` ref. -/
structure StoreState where
  currentGame : Option Game
  board : List Cell
  cards : List Card
  movesLog : List MoveRow
  isLoading : Bool
  errorMsg : Option String
deriving DecidableEq, Repr

/-- Computed `isPlayerA` (lines 28-31): false without a user or a game,
else `currentGame.player_a === userId`. -/
def isPlayerA (userId : Option String) (s : StoreState) : Bool :=
  match userId, s.currentGame with
  | some uid, some g => g.player_a = some uid
  | _, _ => false

/-- Computed `isPlayerB` (lines 33-36). -/
def isPlayerB (userId : Option String) (s : StoreState) : Bool :=
  match userId, s.currentGame with
  | some uid, some g => g.player_b = some uid
  | _, _ => false

/-- Computed `isPlayerTurn` (lines 43-49). -/
def isPlayerTurn (userId : Option String) (s : StoreState) : Bool :=
  match userId, s.currentGame with
  | some _, some g =>
      (isPlayerA userId s && g.turn = TurnVal.A) ||
      (isPlayerB userId s && g.turn = TurnVal.B)
  | _, _ => false

/-- `err.message || 'fallback'` of the catch blocks: an empty message is
replaced by the fallback text. -/
def orDefault (m d : String) : String :=
  if m = "" then d else m

/-- `createGame` (lines 63-98): inserts a `games` row with
`player_a := authStore.userId` — there is no check that a user is logged
in — status `waiting`, turn `A`, crown at (4,4), then inserts the 81 board
cells and the 20 cards.  `freshId` and `now` stand for the id and
`created_at` the store assigns to the new row; the returned row is cached
as `currentGame` by the caller. -/
def createGame (userId : Option String) (freshId : String) (now : Nat) (db : DB) :
    DB × Except String Game :=
  let g : Game :=
    { id := freshId, status := GameStatus.waiting, player_a := userId, player_b := none,
      turn := TurnVal.A, crown_x := 4, crown_y := 4, score_a := none, score_b := none,
      winner := none, created_at := now, updated_at := none, finished_at := none }
  ({ db with
      games := db.games ++ [g],
      cells := db.cells ++ initializeBoard freshId,
      cards := db.cards ++ initializeCards freshId },
   Except.ok g)

/-- The column changes applied by the `update` call of `joinGame`
(lines 124-133): sets `player_b`, `status`, `updated_at` on a row; all
other columns keep their current values. -/
def joinUpdate (uid : String) (now : Nat) (g : Game) : Game :=
  { g with player_b := some uid, status := GameStatus.playing, updated_at := some now }

/-- Phase 1 of `joinGame`: the `select` of the current row
(lines 110-116); `.single()` errors when no row matches (the error text is
the collaborator's, abbreviated here). -/
def joinFetch (db : DB) (gameId : String) : Except String Game :=
  match db.getGame gameId with
  | none => Except.error "row not found"
  | some g => Except.ok g

/-- Phase 2 of `joinGame`: the fullness check against the snapshot read in
phase 1 (line 119), then the update of the current row (lines 124-133).
The update is filtered by `.eq('id', gameId)` only — it is not conditional
on seat B being empty. -/
def joinWrite (uid : String) (now : Nat) (snapshot : Game) (db : DB) (gameId : String) :
    DB × Except String Game :=
  if snapshot.player_a.isSome && snapshot.player_b.isSome then
    (db, Except.error "This game is already full")
  else
    match db.getGame gameId with
    | none => (db, Except.error "row not found")
    | some cur =>
        (db.setGame gameId (joinUpdate uid now cur), Except.ok (joinUpdate uid now cur))

/-- `joinGame` (lines 100-159) run without interleaving: login check, then
phase 1 (read) immediately followed by phase 2 (check and write).  The
returned row is cached as `currentGame` by the caller. -/
def joinGame (userId : Option String) (now : Nat) (db : DB) (gameId : String) :
    DB × Except String Game :=
  match userId with
  | none => (db, Except.error "You must be logged in to join a game")
  | some uid =>
    match joinFetch db gameId with
    | Except.error m => (db, Except.error m)
    | Except.ok g => joinWrite uid now g db gameId

/-- `makeMove` (lines 161-192): rejects with `It's not your turn` when
there is no cached game or it is not the caller's turn — before anything
else happens — and otherwise forwards the move to the opaque `play-turn`
edge function, whose outcome is the parameter `remoteResult`; local
session, board, card and move state is never mutated here.  The returned
state reflects the `error` ref and `isLoading` ref after the call. -/
def makeMove (userId : Option String) (remoteResult : Except String Unit)
    (s : StoreState) (cardId : String) (toX toY : Int) :
    StoreState × Except String Unit :=
  if s.currentGame.isNone || !isPlayerTurn userId s then
    ({ s with errorMsg := some "It's not your turn", isLoading := false },
     Except.error "It's not your turn")
  else
    match remoteResult with
    | Except.ok u => ({ s with isLoading := false }, Except.ok u)
    | Except.error m =>
        ({ s with errorMsg := some (orDefault m "Failed to make move"), isLoading := false },
         Except.error m)

/-- `forfeitGame` (lines 194-222): rejects only when there is no cached
game or no logged-in user; otherwise it updates the row with the cached
game's id to status `finished`, winner the caller's opposing seat
(`isPlayerA ? 'B' : 'A'`), and fresh timestamps.  There is no check of the
current status.  A Supabase `update` matching no rows is not an error. -/
def forfeitGame (userId : Option String) (now : Nat) (db : DB) (s : StoreState) :
    DB × Except String Unit :=
  match s.currentGame, userId with
  | some g, some _ =>
      let winner := if isPlayerA userId s then Seat.B else Seat.A
      match db.getGame g.id with
      | none => (db, Except.ok ())
      | some cur =>
          (db.setGame g.id
            { cur with
              status := GameStatus.finished, winner := some winner,
              finished_at := some now, updated_at := some now },
           Except.ok ())
  | _, _ => (db, Except.error "No active game or user not authenticated")

/-- Stable insertion sort by `order_in_deck`, embedding the
`.order('order_in_deck', { ascending: true })` of `fetchCards`. -/
def insertByOrder (c : Card) : List Card → List Card
  | [] => [c]
  | d :: ds => if c.order_in_deck ≤ d.order_in_deck then c :: d :: ds
               else d :: insertByOrder c ds

def sortByOrder : List Card → List Card
  | [] => []
  | c :: cs => insertByOrder c (sortByOrder cs)

/-- `fetchBoard` (lines 311-320): replaces the local board with all cells
of the session, straight from the store. -/
def fetchBoard (db : DB) (gameId : String) (s : StoreState) : StoreState :=
  { s with board := db.cells.filter fun c => c.game_id = gameId }

/-- `fetchCards` (lines 322-332): replaces the local cards with all cards
of the session, ordered by `order_in_deck`. -/
def fetchCards (db : DB) (gameId : String) (s : StoreState) : StoreState :=
  { s with cards := sortByOrder (db.cards.filter fun c => c.game_id = gameId) }

inductive EventType
  | INSERT
  | UPDATE
  | DELETE
deriving DecidableEq, Repr

/-- A `postgres_changes` payload on the `games` channel: the event type
and `payload.new`, which carries no row on DELETE events. -/
structure GamePayload where
  eventType : EventType
  newRow : Option Game
deriving DecidableEq, Repr

/-- A `postgres_changes` payload on the `cells` channel. -/
structure CellPayload where
  eventType : EventType
  newRow : Option Cell
deriving DecidableEq, Repr

/-- A `postgres_changes` payload on the `cards` channel. -/
structure CardPayload where
  eventType : EventType
  newRow : Option Card
deriving DecidableEq, Repr

/-- The `games`-table handler installed by `subscribeToGame`
(lines 386-391): on UPDATE or INSERT the cached session is replaced
wholesale by `payload.new`; any other event type leaves the store
untouched. -/
def handleGameEvent (s : StoreState) (p : GamePayload) : StoreState :=
  if p.eventType = EventType.UPDATE || p.eventType = EventType.INSERT then
    { s with currentGame := p.newRow }
  else s

/-- The `cells`-table handler (lines 400-403): ignores the payload content
and re-fetches the whole board of the session. -/
def handleCellEvent (db : DB) (gameId : String) (s : StoreState)
    (_p : CellPayload) : StoreState :=
  fetchBoard db gameId s

/-- The `cards`-table handler (lines 412-415): ignores the payload content
and re-fetches the whole card collection of the session. -/
def handleCardEvent (db : DB) (gameId : String) (s : StoreState)
    (_p : CardPayload) : StoreState :=
  fetchCards db gameId s

/-- Helper `getCell` (`game.ts` lines 54-56). -/
def getCell (board : List Cell) (x y : Int) : Option Cell :=
  board.find? fun c => c.x = x && c.y = y

/-- The local refs of `GameBoard.vue` (lines 33-38) that make up the
interaction controller state. -/
structure InteractionState where
  isDragging : Bool
  dragStartCell : Option (Int × Int)
  dragEndCell : Option (Int × Int)
  hoveredCell : Option (Int × Int)
  validMoves : List (Int × Int)
  selectedCard : Option String
deriving DecidableEq, Repr

/-- The initial (idle) controller state. -/
def idleInteraction : InteractionState :=
  { isDragging := false, dragStartCell := none, dragEndCell := none,
    hoveredCell := none, validMoves := [], selectedCard := none }

/-- `resetDragState` (`GameBoard.vue` lines 167-172): clears the drag refs
and the highlight set; `hoveredCell` and `selectedCard` are untouched. -/
def resetDragState (st : InteractionState) : InteractionState :=
  { st with
    isDragging := false, dragStartCell := none, dragEndCell := none,
    validMoves := [] }

/-- Discrete outputs of the controller: emitted component events and calls
into the game store. -/
inductive UIEvent
  | cellClick (x y : Int)
  | moveMade (origin : Option (Int × Int)) (x y : Int)
  | playCardCall (cardId : String) (x y : Int)
deriving DecidableEq, Repr

/-- The TS `!==` between a cell owner string (`'none' | 'A' | 'B'`) and
`gameStore.currentPlayer` (`'A' | 'B' | 'none'` or `null`), as used at
`GameBoard.vue` line 196. -/
def ownerEqTurn : Owner → Option TurnVal → Bool
  | Owner.A, some TurnVal.A => true
  | Owner.B, some TurnVal.B => true
  | Owner.ownNone, some TurnVal.N => true
  | _, _ => false

/-- The direction table of `updateValidMoves` (lines 182-186). -/
def directions : List (Int × Int) :=
  [(-1, -1), (0, -1), (1, -1), (-1, 0), (1, 0), (-1, 1), (0, 1), (1, 1)]

/-- `updateValidMoves` (lines 174-203): with no cached game the state is
untouched; otherwise the highlight set becomes the in-bounds 8-neighbours
of the origin whose cell is missing, unowned, or not owned by the current
turn holder. -/
def updateValidMoves (game : Option Game) (board : List Cell) (fromX fromY : Int)
    (st : InteractionState) : InteractionState :=
  match game with
  | none => st
  | some g =>
    let mvs := directions.filterMap fun d =>
      let x := fromX + d.1
      let y := fromY + d.2
      if 0 ≤ x && x < 9 && 0 ≤ y && y < 9 then
        match getCell board x y with
        | none => some (x, y)
        | some cell =>
            if cell.owner = Owner.ownNone || !ownerEqTurn cell.owner (some g.turn) then
              some (x, y)
            else none
      else none
    { st with validMoves := mvs }

/-- `playCard` (lines 205-216): without a cached game it does nothing;
otherwise it calls `gameStore.makeMove(cardId, x, y)` and, when that call
succeeds (`moveOk`), deselects the card; a failed call leaves the
selection in place. -/
def playCard (game : Option Game) (moveOk : Bool) (st : InteractionState)
    (cardId : String) (x y : Int) : InteractionState × List UIEvent :=
  match game with
  | none => (st, [])
  | some _ =>
      (if moveOk then { st with selectedCard := none } else st,
       [UIEvent.playCardCall cardId x y])

/-- `handleCellClick` (lines 99-121): no-op when not interactive; with a
selected card it plays that card at the clicked cell; otherwise it emits
`cell-click` and either emits `move-made` (when the cell is in the
highlight set) and resets the drag state, or starts a new drag from the
cell and recomputes the highlight set. -/
def handleCellClick (interactive : Bool) (game : Option Game) (board : List Cell)
    (moveOk : Bool) (st : InteractionState) (x y : Int) :
    InteractionState × List UIEvent :=
  if !interactive then (st, [])
  else
    match st.selectedCard with
    | some c => playCard game moveOk st c x y
    | none =>
        if st.validMoves.any fun m => m.1 = x && m.2 = y then
          (resetDragState st, [UIEvent.cellClick x y, UIEvent.moveMade st.dragStartCell x y])
        else
          (updateValidMoves game board x y { st with dragStartCell := some (x, y) },
           [UIEvent.cellClick x y])

/-- The keys `handleKeyDown` distinguishes. -/
inductive Key
  | arrowUp
  | arrowDown
  | arrowLeft
  | arrowRight
  | enter
  | escape
  | other
deriving DecidableEq, Repr

def isArrow (k : Key) : Bool :=
  k = Key.arrowUp || k = Key.arrowDown || k = Key.arrowLeft || k = Key.arrowRight

/-- `handleKeyDown` (`GameBoard.vue` lines 229-282).  The whole handler is
guarded by `isInteractive` (line 230).  Arrow keys seed the cursor at
(4,4) or move it one step, each direction guarded by the grid edge; Enter
activates the cursor cell via `handleCellClick`; Escape resets the drag
state and deselects the card. -/
def handleKeyDown (interactive : Bool) (game : Option Game) (board : List Cell)
    (moveOk : Bool) (st : InteractionState) (k : Key) :
    InteractionState × List UIEvent :=
  if !interactive then (st, [])
  else
    let st1 :=
      if isArrow k then
        match st.hoveredCell with
        | none => { st with hoveredCell := some (4, 4) }
        | some (x, y) =>
          match k with
          | Key.arrowUp => if y > 0 then { st with hoveredCell := some (x, y - 1) } else st
          | Key.arrowDown => if y < 8 then { st with hoveredCell := some (x, y + 1) } else st
          | Key.arrowLeft => if x > 0 then { st with hoveredCell := some (x - 1, y) } else st
          | Key.arrowRight => if x < 8 then { st with hoveredCell := some (x + 1, y) } else st
          | _ => st
      else st
    if k = Key.enter then
      match st1.hoveredCell with
      | some (x, y) => handleCellClick interactive game board moveOk st1 x y
      | none => (st1, [])
    else if k = Key.escape then
      ({ resetDragState st1 with selectedCard := none }, [])
    else (st1, [])

/-- The `watch` on `gameStore.currentGame` (`GameBoard.vue` lines
293-299): whenever the cached game changes to a non-null value, the drag
state is reset and the card deselected. -/
def onGameChange (newGame : Option Game) (st : InteractionState) : InteractionState :=
  match newGame with
  | some _ => { resetDragState st with selectedCard := none }
  | none => st

/-- `handleCellClick` of `GamePage.vue` (lines 105-116): the page-level
`cell-click` listener; unless it is the viewer's turn and a page-level
card is selected it does nothing, and otherwise submits
`makeMove(selectedCardId, coords.x, coords.y)` — with no reference to any
highlight set. -/
def pageHandleCellClick (playerTurn : Bool) (selectedCardId : Option String)
    (x y : Int) : Option (String × Int × Int) :=
  if !playerTurn || selectedCardId.isNone then none
  else selectedCardId.map fun c => (c, x, y)

/-! ## Fixtures -/

/-- A waiting session with only seat A filled. -/
def g0 : Game :=
  { id := "g1", status := GameStatus.waiting, player_a := some "alice", player_b := none,
    turn := TurnVal.A, crown_x := 4, crown_y := 4, score_a := none, score_b := none,
    winner := none, created_at := 0, updated_at := none, finished_at := none }

def db0 : DB := { games := [g0], cells := [], cards := [], moveRows := [] }

/-- A finished session won by seat A. -/
def gFin : Game :=
  { id := "g2", status := GameStatus.finished, player_a := some "alice",
    player_b := some "bob", turn := TurnVal.N, crown_x := 4, crown_y := 4,
    score_a := some 3, score_b := some 1, winner := some Seat.A, created_at := 0,
    updated_at := some 5, finished_at := some 5 }

def dbFin : DB := { games := [gFin], cells := [], cards := [], moveRows := [] }

def sFin : StoreState :=
  { currentGame := some gFin, board := [], cards := [], movesLog := [],
    isLoading := false, errorMsg := none }

/-- A playing session, turn A. -/
def gPlay : Game :=
  { id := "g4", status := GameStatus.playing, player_a := some "alice",
    player_b := some "bob", turn := TurnVal.A, crown_x := 4, crown_y := 4,
    score_a := some 0, score_b := some 0, winner := none, created_at := 0,
    updated_at := some 1, finished_at := none }

def sPlay : StoreState :=
  { currentGame := some gPlay, board := initializeBoard "g4",
    cards := initializeCards "g4", movesLog := [], isLoading := false, errorMsg := none }

def dbPlay : DB :=
  { games := [gPlay], cells := initializeBoard "g4", cards := initializeCards "g4",
    moveRows := [] }

def emptyDB : DB := { games := [], cells := [], cards := [], moveRows := [] }

/-! ## Store lemmas -/

theorem find?_games_id (l : List Game) (gid : String) (g : Game)
    (h : (l.find? fun r => r.id = gid) = some g) : g.id = gid := by
  have := List.find?_some h
  simpa using this

theorem DB.getGame_id (db : DB) (gid : String) (g : Game)
    (h : db.getGame gid = some g) : g.id = gid :=
  find?_games_id db.games gid g h

theorem find?_map_set (l : List Game) (gid : String) (x : Game) (hid : x.id = gid)
    (h : ∃ r ∈ l, r.id = gid) :
    ((l.map fun r => if r.id = gid then x else r).find? fun r => r.id = gid) = some x := by
  induction l with
  | nil => simp at h
  | cons a as ih =>
      by_cases ha : a.id = gid
      · simp [List.find?, ha, hid]
      · have h' : ∃ r ∈ as, r.id = gid := by
          rcases h with ⟨r, hr, hid2⟩
          rcases List.mem_cons.mp hr with rfl | hmem
          · exact absurd hid2 ha
          · exact ⟨r, hmem, hid2⟩
        rw [List.map_cons, List.find?_cons_of_neg _ (by simp [ha])]
        exact ih h'

theorem DB.getGame_setGame (db : DB) (gid : String) (x cur : Game)
    (hid : x.id = gid) (h : db.getGame gid = some cur) :
    (db.setGame gid x).getGame gid = some x :=
  find?_map_set db.games gid x hid
    ⟨cur, List.mem_of_find?_eq_some h, by simpa using List.find?_some h⟩

/-! ## Claims -/

/-- C6: every new session's board consists of exactly 81 cells, one per
coordinate pair of [0,8]×[0,8] (the coordinate list is exactly the grid
enumeration, which is duplicate-free), with exactly one pre-owned cell —
the center (4,4), owned by seat A; and the two starting decks have
identical cardinality and identical composition, with no card starting
used. -/
theorem C6_new_session_board_and_decks (gid : String) :
    (initializeBoard gid).length = 81 ∧
    boardCoords gid = allGridCoords ∧
    allGridCoords.Nodup ∧
    boardOwned gid = [(4, 4, Owner.A)] ∧
    deckOf gid Seat.A = deckOf gid Seat.B ∧
    (deckOf gid Seat.A).length = 10 ∧
    ((initializeCards gid).map fun c => c.is_used) = List.replicate 20 false :=
  ⟨rfl, rfl, by decide, rfl, rfl, rfl, rfl⟩

/-- C3 counterexample: `createGame` with an absent creator identity does
not fail with any error — it creates the session with a null creator in
seat A, together with the 81-cell board and the 20-card deck. -/
theorem C3_counterexample :
    ((createGame none "g3" 0 emptyDB).2).map (fun g => g.player_a) = Except.ok none ∧
    (createGame none "g3" 0 emptyDB).1.games.length = 1 ∧
    (createGame none "g3" 0 emptyDB).1.cells.length = 81 ∧
    (createGame none "g3" 0 emptyDB).1.cards.length = 20 := by
  refine ⟨rfl, rfl, rfl, rfl⟩

/-- C3 amended: `createGame` performs no identity check at all — for any
creator identity, present or absent, it succeeds and creates the session
row (seat A holding exactly the given identity, status waiting), the full
board and the full deck; an absent identity is handled by proceeding with
a null creator, not rejected as a precondition failure. -/
theorem C3_amended (userId : Option String) (freshId : String) (now : Nat) (db : DB) :
    ∃ g : Game, (createGame userId freshId now db).2 = Except.ok g ∧
      g.player_a = userId ∧ g.status = GameStatus.waiting ∧
      (createGame userId freshId now db).1.cells = db.cells ++ initializeBoard freshId ∧
      (createGame userId freshId now db).1.cards = db.cards ++ initializeCards freshId :=
  ⟨_, rfl, rfl, rfl, rfl, rfl⟩

/-- C1 counterexample: `joinGame`'s seat-B write is filtered only by the
session id — it is not conditioned on seat B being empty — so under the
interleaving read₁, read₂, write₁, write₂ of two concurrent joins on the
waiting session `g0`, both calls succeed (neither observes the
already-full conflict error) and the second write overwrites the first
seat-B assignment: a lost update. -/
theorem C1_counterexample :
    joinFetch db0 "g1" = Except.ok g0 ∧
    (joinWrite "bob" 1 g0 db0 "g1").2 = Except.ok (joinUpdate "bob" 1 g0) ∧
    (joinWrite "carol" 2 g0 (joinWrite "bob" 1 g0 db0 "g1").1 "g1").2 =
      Except.ok (joinUpdate "carol" 2 (joinUpdate "bob" 1 g0)) ∧
    (((joinWrite "carol" 2 g0 (joinWrite "bob" 1 g0 db0 "g1").1 "g1").1.getGame "g1").map
        fun r => r.player_b) = some (some "carol") :=
  ⟨rfl, rfl, rfl, rfl⟩

/-- C1 amended: `joinGame` checks fullness only against its own earlier
read and then writes unconditionally.  When the two joins run
sequentially, exactly one succeeds and the other observes the
already-full conflict error; but when both reads precede both writes,
both calls succeed and the later write overwrites seat B. -/
theorem C1_amended (db : DB) (gid : String) (g : Game) (u1 u2 : String) (n1 n2 : Nat)
    (hdb : db.getGame gid = some g) (ha : g.player_a.isSome = true)
    (hb : g.player_b = none) :
    ((joinGame (some u1) n1 db gid).2 = Except.ok (joinUpdate u1 n1 g) ∧
     (joinGame (some u2) n2 (joinGame (some u1) n1 db gid).1 gid).2 =
       Except.error "This game is already full") ∧
    ((joinWrite u1 n1 g db gid).2 = Except.ok (joinUpdate u1 n1 g) ∧
     (joinWrite u2 n2 g (joinWrite u1 n1 g db gid).1 gid).2 =
       Except.ok (joinUpdate u2 n2 (joinUpdate u1 n1 g))) := by
  have hgid : g.id = gid := DB.getGame_id db gid g hdb
  have hxid : (joinUpdate u1 n1 g).id = gid := by simpa [joinUpdate] using hgid
  have notFull : (g.player_a.isSome && g.player_b.isSome) = false := by simp [hb]
  have w1 : joinWrite u1 n1 g db gid =
      (db.setGame gid (joinUpdate u1 n1 g), Except.ok (joinUpdate u1 n1 g)) := by
    simp [joinWrite, notFull, hdb]
  have get1 : (db.setGame gid (joinUpdate u1 n1 g)).getGame gid =
      some (joinUpdate u1 n1 g) :=
    DB.getGame_setGame db gid _ g hxid hdb
  have j1 : joinGame (some u1) n1 db gid =
      (db.setGame gid (joinUpdate u1 n1 g), Except.ok (joinUpdate u1 n1 g)) := by
    simp [joinGame, joinFetch, hdb, w1]
  have hfull2 : ((joinUpdate u1 n1 g).player_a.isSome &&
      (joinUpdate u1 n1 g).player_b.isSome) = true := by
    simp [joinUpdate, ha]
  refine ⟨⟨by rw [j1], ?_⟩, by rw [w1], ?_⟩
  · rw [j1]
    simp only [joinGame, joinFetch, get1]
    simp [joinWrite, hfull2]
  · rw [w1]
    simp only [joinWrite, notFull, get1]
    simp

/-- C1 amended, instantiated: the sequential and the interleaved double
join on the concrete waiting session `g0`. -/
theorem C1_amended_witness :
    ((joinGame (some "bob") 1 db0 "g1").2 = Except.ok (joinUpdate "bob" 1 g0) ∧
     (joinGame (some "carol") 2 (joinGame (some "bob") 1 db0 "g1").1 "g1").2 =
       Except.error "This game is already full") ∧
    ((joinWrite "bob" 1 g0 db0 "g1").2 = Except.ok (joinUpdate "bob" 1 g0) ∧
     (joinWrite "carol" 2 g0 (joinWrite "bob" 1 g0 db0 "g1").1 "g1").2 =
       Except.ok (joinUpdate "carol" 2 (joinUpdate "bob" 1 g0))) :=
  C1_amended db0 "g1" g0 "bob" "carol" 1 2 rfl rfl rfl

/-- C4: for every existing session and logged-in joiner, `joinGame` fails
with the already-full conflict error exactly when both seats are filled
(leaving the store untouched); otherwise it succeeds, filling seat B with
the joiner's identity, setting status to playing, and leaving the turn
owner, the crown position, and seat A unchanged. -/
theorem C4_joinGame (uid : String) (now : Nat) (db : DB) (gid : String) (g : Game)
    (hdb : db.getGame gid = some g) :
    (g.player_a.isSome ∧ g.player_b.isSome →
      joinGame (some uid) now db gid = (db, Except.error "This game is already full")) ∧
    (¬(g.player_a.isSome ∧ g.player_b.isSome) →
      ∃ g' : Game, (joinGame (some uid) now db gid).2 = Except.ok g' ∧
        (joinGame (some uid) now db gid).1.getGame gid = some g' ∧
        g'.player_b = some uid ∧ g'.status = GameStatus.playing ∧
        g'.turn = g.turn ∧ g'.crown_x = g.crown_x ∧ g'.crown_y = g.crown_y ∧
        g'.player_a = g.player_a) := by
  constructor
  · intro hfull
    have hcond : (g.player_a.isSome && g.player_b.isSome) = true := by
      simp [hfull.1, hfull.2]
    simp [joinGame, joinFetch, hdb, joinWrite, hcond]
  · intro hnot
    have hcond : (g.player_a.isSome && g.player_b.isSome) = false := by
      cases hpa : g.player_a.isSome <;> cases hpb : g.player_b.isSome <;> simp_all
    have hgid : g.id = gid := DB.getGame_id db gid g hdb
    have hxid : (joinUpdate uid now g).id = gid := by simpa [joinUpdate] using hgid
    have w : joinWrite uid now g db gid =
        (db.setGame gid (joinUpdate uid now g), Except.ok (joinUpdate uid now g)) := by
      simp [joinWrite, hcond, hdb]
    refine ⟨joinUpdate uid now g, ?_, ?_, rfl, rfl, rfl, rfl, rfl, rfl⟩
    · simp [joinGame, joinFetch, hdb, w]
    · simp only [joinGame, joinFetch, hdb, w]
      exact DB.getGame_setGame db gid _ g hxid hdb

/-- C4 instantiated on a full session (conflict) and on the open session
`g0` (successful join). -/
theorem C4_witness :
    (joinGame (some "carol") 3 dbFin "g2" = (dbFin, Except.error "This game is already full")) ∧
    (∃ g' : Game, (joinGame (some "bob") 3 db0 "g1").2 = Except.ok g' ∧
      (joinGame (some "bob") 3 db0 "g1").1.getGame "g1" = some g' ∧
      g'.player_b = some "bob" ∧ g'.status = GameStatus.playing ∧
      g'.turn = g0.turn ∧ g'.crown_x = g0.crown_x ∧ g'.crown_y = g0.crown_y ∧
      g'.player_a = g0.player_a) :=
  ⟨(C4_joinGame "carol" 3 dbFin "g2" gFin rfl).1 (by decide),
   (C4_joinGame "bob" 3 db0 "g1" g0 rfl).2 (by decide)⟩

/-- C5: whenever the caller does not hold the current turn seat,
`makeMove` fails with the turn error and leaves the cached session, the
board, the cards, and the move log untouched; the outcome is the same for
every possible remote result, so the rules function is never consulted. -/
theorem C5_makeMove_turn (userId : Option String) (remoteResult : Except String Unit)
    (s : StoreState) (cardId : String) (toX toY : Int)
    (h : isPlayerTurn userId s = false) :
    (makeMove userId remoteResult s cardId toX toY).2 = Except.error "It's not your turn" ∧
    (makeMove userId remoteResult s cardId toX toY).1.currentGame = s.currentGame ∧
    (makeMove userId remoteResult s cardId toX toY).1.board = s.board ∧
    (makeMove userId remoteResult s cardId toX toY).1.cards = s.cards ∧
    (makeMove userId remoteResult s cardId toX toY).1.movesLog = s.movesLog := by
  simp [makeMove, h]

/-- C5 instantiated: player B calls `makeMove` on `sPlay` while the turn
belongs to seat A. -/
theorem C5_witness :
    (makeMove (some "bob") (Except.ok ()) sPlay "card1" 5 5).2 =
      Except.error "It's not your turn" ∧
    (makeMove (some "bob") (Except.ok ()) sPlay "card1" 5 5).1.currentGame =
      sPlay.currentGame ∧
    (makeMove (some "bob") (Except.ok ()) sPlay "card1" 5 5).1.board = sPlay.board ∧
    (makeMove (some "bob") (Except.ok ()) sPlay "card1" 5 5).1.cards = sPlay.cards ∧
    (makeMove (some "bob") (Except.ok ()) sPlay "card1" 5 5).1.movesLog = sPlay.movesLog :=
  C5_makeMove_turn (some "bob") (Except.ok ()) sPlay "card1" 5 5 (by decide)

/-- C2 amended: `forfeitGame` checks no session status and raises no
already-finished error: every call made with a cached session and a
logged-in user succeeds, overwriting the stored row with status finished,
winner the caller's opposing seat, and the fresh finish timestamp — on a
playing session (first forfeit) and equally on an already-finished one,
where a repeat call can change the recorded winner. -/
theorem C2_amended (userId : Option String) (uid : String) (now : Nat) (db : DB)
    (s : StoreState) (g cur : Game)
    (hcg : s.currentGame = some g) (hu : userId = some uid)
    (hdb : db.getGame g.id = some cur) :
    (forfeitGame userId now db s).2 = Except.ok () ∧
    ((forfeitGame userId now db s).1.getGame g.id).map
        (fun r => (r.status, r.winner, r.finished_at)) =
      some (GameStatus.finished,
            some (if isPlayerA userId s then Seat.B else Seat.A), some now) := by
  subst hu
  have hid : ({ cur with
      status := GameStatus.finished,
      winner := some (if isPlayerA (some uid) s then Seat.B else Seat.A),
      finished_at := some now, updated_at := some now } : Game).id = g.id := by
    simpa using DB.getGame_id db g.id cur hdb
  constructor
  · simp [forfeitGame, hcg, hdb]
  · simp only [forfeitGame, hcg, hdb]
    rw [DB.getGame_setGame db g.id _ cur hid hdb]
    rfl

/-- C2 amended, instantiated: forfeiting the playing session `gPlay` as
player B finalizes it with winner A and the given timestamp. -/
theorem C2_amended_witness :
    (forfeitGame (some "bob") 7 dbPlay sPlay).2 = Except.ok () ∧
    ((forfeitGame (some "bob") 7 dbPlay sPlay).1.getGame gPlay.id).map
        (fun r => (r.status, r.winner, r.finished_at)) =
      some (GameStatus.finished,
            some (if isPlayerA (some "bob") sPlay then Seat.B else Seat.A), some 7) :=
  C2_amended (some "bob") "bob" 7 dbPlay sPlay gPlay gPlay rfl rfl rfl

/-- C2 counterexample: `forfeitGame` on the already-finished session
`gFin` (recorded winner: A), called by its seat-A player, does not fail
with any error — it succeeds and rewrites the recorded winner from A to
B. -/
theorem C2_counterexample :
    (forfeitGame (some "alice") 9 dbFin sFin).2 = Except.ok () ∧
    ((forfeitGame (some "alice") 9 dbFin sFin).1.getGame "g2").map (fun r => r.winner) =
      some (some Seat.B) := by
  refine ⟨rfl, rfl⟩

/-- C7 counterexample: a session-row DELETE change event does not replace
the cached session with the event's payload — the handler ignores every
event type other than UPDATE and INSERT, so the cache keeps the old row. -/
theorem C7_counterexample :
    handleGameEvent sPlay { eventType := EventType.DELETE, newRow := none } = sPlay ∧
    (handleGameEvent sPlay { eventType := EventType.DELETE, newRow := none }).currentGame ≠
      none :=
  ⟨rfl, by decide⟩

/-- C7 amended: on a session-row INSERT or UPDATE event the cached session
is replaced wholesale by the event's payload (no partial-field merge); a
DELETE event leaves the cache unchanged; and on any cell or card change
event, whatever the payload carries, the respective collection is
re-fetched wholesale as the store's current session-scoped snapshot. -/
theorem C7_realtime (s : StoreState) (p : GamePayload) (db : DB) (gid : String)
    (pc : CellPayload) (pk : CardPayload) :
    (p.eventType = EventType.UPDATE ∨ p.eventType = EventType.INSERT →
      handleGameEvent s p = { s with currentGame := p.newRow }) ∧
    (p.eventType = EventType.DELETE → handleGameEvent s p = s) ∧
    (handleCellEvent db gid s pc).board = db.cells.filter (fun c => c.game_id = gid) ∧
    (handleCardEvent db gid s pk).cards =
      sortByOrder (db.cards.filter fun c => c.game_id = gid) := by
  refine ⟨?_, ?_, rfl, rfl⟩
  · rintro (h | h) <;> simp [handleGameEvent, h]
  · intro h
    simp [handleGameEvent, h]

/-- C7 amended, instantiated: an UPDATE event replaces the cached session
wholesale; a DELETE event leaves it untouched. -/
theorem C7_witness :
    handleGameEvent sFin { eventType := EventType.UPDATE, newRow := some gPlay } =
      { sFin with currentGame := some gPlay } ∧
    handleGameEvent sFin { eventType := EventType.DELETE, newRow := some gPlay } = sFin :=
  ⟨(C7_realtime sFin { eventType := EventType.UPDATE, newRow := some gPlay } emptyDB "g"
      { eventType := EventType.INSERT, newRow := none }
      { eventType := EventType.INSERT, newRow := none }).1 (Or.inl rfl),
   (C7_realtime sFin { eventType := EventType.DELETE, newRow := some gPlay } emptyDB "g"
      { eventType := EventType.INSERT, newRow := none }
      { eventType := EventType.INSERT, newRow := none }).2.1 rfl⟩

/-- A mid-drag controller state with a selected card. -/
def stDrag : InteractionState :=
  { isDragging := true, dragStartCell := some (2, 3), dragEndCell := some (3, 3),
    hoveredCell := some (3, 3), validMoves := [(3, 3)], selectedCard := some "card9" }

/-- C8 counterexample: the whole key handler returns early when the board
is not interactive (`interactive` prop off, or not the viewer's turn), so
pressing Escape in a non-idle state changes nothing: the drag origin and
the card selection survive. -/
theorem C8_counterexample :
    handleKeyDown false none [] true stDrag Key.escape = (stDrag, []) ∧
    stDrag.dragStartCell ≠ none ∧ stDrag.selectedCard ≠ none :=
  ⟨rfl, by decide, by decide⟩

/-- C8 amended: pressing Escape while the board is interactive resets the
drag origin, drag target, highlight set, and card selection from any
state; while the board is not interactive, Escape has no effect at all. -/
theorem C8_escape (game : Option Game) (board : List Cell) (moveOk : Bool)
    (st : InteractionState) :
    handleKeyDown true game board moveOk st Key.escape =
      ({ st with
          isDragging := false, dragStartCell := none, dragEndCell := none,
          validMoves := [], selectedCard := none }, []) ∧
    handleKeyDown false game board moveOk st Key.escape = (st, []) :=
  ⟨rfl, rfl⟩

/-- Whether an optional cursor position lies inside the [0,8]×[0,8] grid. -/
def inGridOpt : Option (Int × Int) → Bool
  | none => true
  | some (x, y) => 0 ≤ x && x ≤ 8 && 0 ≤ y && y ≤ 8

/-- One keyboard event together with the reactive context it is handled
under. -/
structure KeyInput where
  interactive : Bool
  game : Option Game
  board : List Cell
  moveOk : Bool
  key : Key
deriving Repr

/-- Feeding a sequence of keyboard events through `handleKeyDown`. -/
def runKeys (st : InteractionState) (inputs : List KeyInput) : InteractionState :=
  inputs.foldl
    (fun s i => (handleKeyDown i.interactive i.game i.board i.moveOk s i.key).1) st

theorem handleCellClick_hoveredCell (interactive : Bool) (game : Option Game)
    (board : List Cell) (moveOk : Bool) (st : InteractionState) (x y : Int) :
    (handleCellClick interactive game board moveOk st x y).1.hoveredCell =
      st.hoveredCell := by
  cases interactive
  · rfl
  · cases hc : st.selectedCard with
    | some c =>
        cases game <;> cases moveOk <;> simp [handleCellClick, playCard, hc]
    | none =>
        cases game <;>
          simp [handleCellClick, playCard, hc, updateValidMoves, resetDragState] <;>
          split <;> rfl

theorem handleKeyDown_inGrid (interactive : Bool) (game : Option Game)
    (board : List Cell) (moveOk : Bool) (st : InteractionState) (k : Key)
    (h : inGridOpt st.hoveredCell = true) :
    inGridOpt (handleKeyDown interactive game board moveOk st k).1.hoveredCell = true := by
  cases interactive
  · simpa [handleKeyDown] using h
  · cases k with
    | arrowUp =>
        cases hh : st.hoveredCell with
        | none => simp [handleKeyDown, isArrow, hh, inGridOpt]
        | some p =>
            obtain ⟨x, y⟩ := p
            rw [hh] at h
            simp [inGridOpt] at h
            simp [handleKeyDown, isArrow, hh]
            split <;> simp [inGridOpt, hh] <;> omega
    | arrowDown =>
        cases hh : st.hoveredCell with
        | none => simp [handleKeyDown, isArrow, hh, inGridOpt]
        | some p =>
            obtain ⟨x, y⟩ := p
            rw [hh] at h
            simp [inGridOpt] at h
            simp [handleKeyDown, isArrow, hh]
            split <;> simp [inGridOpt, hh] <;> omega
    | arrowLeft =>
        cases hh : st.hoveredCell with
        | none => simp [handleKeyDown, isArrow, hh, inGridOpt]
        | some p =>
            obtain ⟨x, y⟩ := p
            rw [hh] at h
            simp [inGridOpt] at h
            simp [handleKeyDown, isArrow, hh]
            split <;> simp [inGridOpt, hh] <;> omega
    | arrowRight =>
        cases hh : st.hoveredCell with
        | none => simp [handleKeyDown, isArrow, hh, inGridOpt]
        | some p =>
            obtain ⟨x, y⟩ := p
            rw [hh] at h
            simp [inGridOpt] at h
            simp [handleKeyDown, isArrow, hh]
            split <;> simp [inGridOpt, hh] <;> omega
    | enter =>
        cases hh : st.hoveredCell with
        | none => simpa [handleKeyDown, isArrow, hh] using h
        | some p =>
            obtain ⟨x, y⟩ := p
            simp [handleKeyDown, isArrow, hh, handleCellClick_hoveredCell]
            rw [hh] at h
            exact h
    | escape => simpa [handleKeyDown, isArrow, resetDragState] using h
    | other => simpa [handleKeyDown, isArrow] using h

/-- C9: for every sequence of keyboard events — any keys, pressed under
any interactive/game context — the navigation cursor never leaves the
[0,8]×[0,8] grid: each arrow press moves it by one step only when the edge
allows it, so repeated presses of an out-of-bounds direction at an edge
keep the cursor on the edge. -/
theorem C9_cursor_in_grid (inputs : List KeyInput) (st : InteractionState)
    (h : inGridOpt st.hoveredCell = true) :
    inGridOpt (runKeys st inputs).hoveredCell = true := by
  induction inputs generalizing st with
  | nil => exact h
  | cons i rest ih =>
      exact ih _ (handleKeyDown_inGrid i.interactive i.game i.board i.moveOk st i.key h)

/-- C9 instantiated: ten presses of ArrowLeft from the idle state keep
the cursor inside the grid. -/
theorem C9_witness :
    inGridOpt (runKeys idleInteraction (List.replicate 10
      { interactive := true, game := some gPlay, board := initializeBoard "g4",
        moveOk := true, key := Key.arrowLeft })).hoveredCell = true :=
  C9_cursor_in_grid _ _ (by decide)

/-- C10: while the board is interactive and a hand card is selected,
clicking any cell plays that card at the clicked coordinates: the emitted
store call is `makeMove(card, x, y)` whatever the highlight set contains —
the highlight check guards only the no-card click path; the page-level
`cell-click` handler likewise submits its selected card at the clicked
coordinates with no highlight consultation. -/
theorem C10_card_click_bypasses_highlight (game : Option Game) (g : Game)
    (board : List Cell) (moveOk : Bool) (st : InteractionState) (c : String) (x y : Int)
    (hg : game = some g) (hc : st.selectedCard = some c) :
    (handleCellClick true game board moveOk st x y).2 = [UIEvent.playCardCall c x y] ∧
    pageHandleCellClick true (some c) x y = some (c, x, y) := by
  subst hg
  constructor
  · simp [handleCellClick, hc, playCard]
  · rfl

/-- C10 instantiated: with card `card1` selected and an empty highlight
set, clicking (7,0) still plays `card1` at (7,0). -/
theorem C10_witness :
    (handleCellClick true (some gPlay) sPlay.board true
        { idleInteraction with selectedCard := some "card1" } 7 0).2 =
      [UIEvent.playCardCall "card1" 7 0] ∧
    pageHandleCellClick true (some "card1") 7 0 = some ("card1", 7, 0) :=
  C10_card_click_bypasses_highlight (some gPlay) gPlay sPlay.board true
    { idleInteraction with selectedCard := some "card1" } "card1" 7 0 rfl rfl
